import Mathlib

/-!
Verification of the point-cloud bounding-box generator (`main.py`).

The script is embedded shallowly:
* file names are lists of characters, so that glob suffix matching and
  case conversion are explicit;
* the LAS header is a record of the five fields the script reads
  (`x_min`, `x_max`, `y_min`, `y_max`, `point_count`); extents are
  modelled as rationals — the script never computes with them, it only
  copies them into the output feature;
* the filesystem effects of a run (directory creation, the `fiona`
  dataset, warnings, the returned path / raised exception, the exit
  code) are captured by an explicit `RunState` produced by a pure
  function mirroring `process_point_clouds` and `main`.
-/

namespace PCBbox

/-- A file name, as the character sequence of the directory entry. -/
abbrev FileName := List Char

/-- The characters of the glob pattern suffix in `folder.glob("*.las")`. -/
def lasSuffix : FileName := ['.', 'l', 'a', 's']

/-- The characters of the glob pattern suffix in `folder.glob("*.laz")`. -/
def lazSuffix : FileName := ['.', 'l', 'a', 'z']

/-- POSIX `Path.glob("*.las")` match: the name ends with the literal
(lower-case) suffix `.las`. -/
def globMatchLas (n : FileName) : Bool := lasSuffix.isSuffixOf n

/-- POSIX `Path.glob("*.laz")` match: the name ends with the literal
(lower-case) suffix `.laz`. -/
def globMatchLaz (n : FileName) : Bool := lazSuffix.isSuffixOf n

/-- The case-insensitive extension predicate used by the specification
("`.las`/`.laz` in any letter case"); stated for comparison with the
source's case-sensitive glob. -/
def ciLasLaz (n : FileName) : Bool :=
  lasSuffix.isSuffixOf (n.map Char.toLower) || lazSuffix.isSuffixOf (n.map Char.toLower)

/-- The subset of the LAS header that the script reads. -/
structure Header where
  x_min : Rat
  x_max : Rat
  y_min : Rat
  y_max : Rat
  point_count : Nat
deriving DecidableEq

/-- One directory entry: its name, and its header when `laspy.open`
succeeds (`none` models a file whose open/header read raises). -/
structure LasFile where
  name : FileName
  header : Option Header
deriving DecidableEq

/-- Exceptions that `process_point_clouds` can raise. -/
inductive PCError where
  | fileNotFound (msg : String)
  | valueError (msg : String)
deriving DecidableEq

/-- The list built by the loop `for ext in ["*.las", "*.laz"]:
files.extend(folder.glob(ext))` — all `*.las` matches in enumeration
order, then all `*.laz` matches in enumeration order. -/
def globEntries (entries : List LasFile) : List LasFile :=
  entries.filter (fun f => globMatchLas f.name) ++
    entries.filter (fun f => globMatchLaz f.name)

/-- `get_las_files`: raises `FileNotFoundError` when the folder does not
exist, otherwise returns the globbed entries. -/
def get_las_files (inputExists : Bool) (entries : List LasFile) :
    Except PCError (List LasFile) :=
  if inputExists then Except.ok (globEntries entries)
  else Except.error (.fileNotFound "Folder not found")

/-- `create_bounding_box_points`: the five-vertex closed rectangle built
from the header extents, in the source's fixed order. -/
def create_bounding_box_points (header : Header) : List (Rat × Rat) :=
  [ (header.x_min, header.y_min),
    (header.x_min, header.y_max),
    (header.x_max, header.y_max),
    (header.x_max, header.y_min),
    (header.x_min, header.y_min) ]

/-- Twice the signed shoelace area of a (closed) vertex list; used only
to state that a degenerate ring has zero area. -/
def ringArea2 : List (Rat × Rat) → Rat
  | (x1, y1) :: (x2, y2) :: rest => (x1 * y2 - x2 * y1) + ringArea2 ((x2, y2) :: rest)
  | _ => 0

/-- The feature dict written per file: the polygon ring plus the five
properties. -/
structure Feature where
  geometry : List (Rat × Rat)
  filename : FileName
  x_min : Rat
  x_max : Rat
  y_min : Rat
  y_max : Rat
  points : Nat
deriving DecidableEq

/-- The body of the per-file `try` block: `laspy.open`, build the ring,
build the feature. `none` when opening or reading the header raises. -/
def extractFeature (f : LasFile) : Option Feature :=
  f.header.map fun h =>
    { geometry := create_bounding_box_points h
      filename := f.name
      x_min := h.x_min
      x_max := h.x_max
      y_min := h.y_min
      y_max := h.y_max
      points := h.point_count }

/-- The `for las_file in las_files` loop: features written to the open
dataset in order, and the warned-about file names in order. -/
def writeLoop : List LasFile → List Feature × List FileName
  | [] => ([], [])
  | f :: rest =>
    let r := writeLoop rest
    match extractFeature f with
    | some feat => (feat :: r.1, r.2)
    | none => (r.1, f.name :: r.2)

/-- The output vector dataset created by `fiona.open(...)`. -/
structure Dataset where
  path : String
  crs : String
  features : List Feature
deriving DecidableEq

/-- The filesystem state a run starts from: the input folder path, its
base name (`Path(input_folder).name`), whether it exists, its entries,
and whether the default output subfolder `PointCloud_laz_BBOX` already
exists inside it. -/
structure World where
  inputPath : String
  inputBase : String
  inputExists : Bool
  inputEntries : List LasFile
  defaultOutExists : Bool
deriving DecidableEq

/-- An explicit `-o` or `--output` argument: its path, whether its parent
directory exists, and whether the directory itself already exists. -/
structure OutputSpec where
  path : String
  parentExists : Bool
  alreadyExists : Bool
deriving DecidableEq

instance {ε α : Type} [DecidableEq ε] [DecidableEq α] : DecidableEq (Except ε α)
  | .ok a, .ok b =>
    if h : a = b then .isTrue (by rw [h]) else .isFalse (by simp [h])
  | .error a, .error b =>
    if h : a = b then .isTrue (by rw [h]) else .isFalse (by simp [h])
  | .ok _, .error _ => .isFalse (by simp)
  | .error _, .ok _ => .isFalse (by simp)

/-- The observable outcome of one `process_point_clouds` call: whether a
new output directory was created, the dataset (when `fiona.open` was
reached), the warnings, and the returned path or raised exception. -/
structure RunState where
  outputDirCreated : Bool
  dataset : Option Dataset
  warnings : List FileName
  result : Except PCError String
deriving DecidableEq

/-- The output folder: `input_path / "PointCloud_laz_BBOX"` when no
`--output` is given, else the given path. -/
def outFolderPath (w : World) (out : Option OutputSpec) : String :=
  match out with
  | none => w.inputPath ++ "/PointCloud_laz_BBOX"
  | some o => o.path

/-- Whether `output_path.mkdir(exist_ok=True)` succeeds: the parent must
exist (for the default output the parent is the input folder), or the
directory must already exist (`exist_ok=True`). -/
def mkdirOk (w : World) (out : Option OutputSpec) : Bool :=
  match out with
  | none => w.inputExists || w.defaultOutExists
  | some o => o.parentExists || o.alreadyExists

/-- Whether that `mkdir` call creates a directory that was not there. -/
def mkdirCreates (w : World) (out : Option OutputSpec) : Bool :=
  match out with
  | none => w.inputExists && !w.defaultOutExists
  | some o => o.parentExists && !o.alreadyExists

/-- `output_path / f'PointCloud_laz_BBOX_{folder_name}.shp'`. -/
def shapefilePath (w : World) (out : Option OutputSpec) : String :=
  outFolderPath w out ++ "/PointCloud_laz_BBOX_" ++ w.inputBase ++ ".shp"

/-- `process_point_clouds`: resolve the output folder, `mkdir` it, then
discover files, fail on an empty discovery, otherwise open the dataset
with the given CRS and run the per-file loop. The `mkdir` happens before
discovery, exactly as in the source. -/
def process_point_clouds (w : World) (out : Option OutputSpec) (crs : String) :
    RunState :=
  if mkdirOk w out then
    match get_las_files w.inputExists w.inputEntries with
    | .error e =>
      { outputDirCreated := mkdirCreates w out, dataset := none,
        warnings := [], result := .error e }
    | .ok las_files =>
      if las_files.isEmpty then
        { outputDirCreated := mkdirCreates w out, dataset := none,
          warnings := [],
          result := .error (.valueError "No .las or .laz files found") }
      else
        let r := writeLoop las_files
        { outputDirCreated := mkdirCreates w out,
          dataset := some { path := shapefilePath w out, crs := crs,
                            features := r.1 },
          warnings := r.2,
          result := .ok (shapefilePath w out) }
  else
    { outputDirCreated := false, dataset := none, warnings := [],
      result := .error (.fileNotFound "No such file or directory") }

/-- The `--crs` default declared by `argparse`. -/
def defaultCrs : String := "EPSG:4326"

/-- `main`: apply the argparse default for `--crs`, run
`process_point_clouds`, and exit 0 on success, 1 on any exception. -/
def mainRun (w : World) (out : Option OutputSpec) (crsArg : Option String) :
    RunState × Nat :=
  let st := process_point_clouds w out (crsArg.getD defaultCrs)
  (st, match st.result with | .ok _ => 0 | .error _ => 1)

end PCBbox

namespace PCBbox

/-! Helper lemmas about the glob patterns and the write loop. -/

lemma globMatch_not_both (n : FileName) :
    ¬(globMatchLas n = true ∧ globMatchLaz n = true) := by
  rintro ⟨h1, h2⟩
  rw [globMatchLas, List.isSuffixOf_iff_suffix] at h1
  rw [globMatchLaz, List.isSuffixOf_iff_suffix] at h2
  have hsub : lasSuffix <:+ lazSuffix :=
    List.suffix_of_suffix_length_le h1 h2 (by decide)
  have heq : lasSuffix = lazSuffix := hsub.eq_of_length (by decide)
  exact absurd heq (by decide)

lemma filter_append_filter_perm {α : Type} (p q : α → Bool)
    (hdisj : ∀ x, ¬(p x = true ∧ q x = true)) (l : List α) :
    List.Perm (l.filter p ++ l.filter q) (l.filter fun x => p x || q x) := by
  induction l with
  | nil => simp
  | cons x l ih =>
    by_cases hp : p x = true
    · have hq : q x = false := by
        cases hqt : q x
        · rfl
        · exact absurd ⟨hp, hqt⟩ (hdisj x)
      simpa [List.filter_cons, hp, hq] using ih.cons x
    · have hp' : p x = false := by simpa using hp
      cases hq : q x
      · simpa [List.filter_cons, hp', hq] using ih
      · simp only [List.filter_cons, hp', hq, Bool.false_or, if_false, if_true,
          cond_true, cond_false]
        exact List.perm_middle.trans (ih.cons x)

lemma writeLoop_fst (files : List LasFile) :
    (writeLoop files).1 = files.filterMap extractFeature := by
  induction files with
  | nil => rfl
  | cons f rest ih =>
    cases hf : extractFeature f <;>
      simp [writeLoop, hf, List.filterMap_cons, ih]

lemma writeLoop_snd (files : List LasFile) :
    (writeLoop files).2 = (files.filter fun f => f.header.isNone).map LasFile.name := by
  induction files with
  | nil => rfl
  | cons f rest ih =>
    cases hf : f.header <;>
      simp [writeLoop, extractFeature, hf, List.filter_cons, ih]

lemma extractFeature_isSome (f : LasFile) (h : f.header.isSome) :
    (extractFeature f).isSome := by
  obtain ⟨hd, hhd⟩ := Option.isSome_iff_exists.mp h
  simp [extractFeature, hhd]

lemma filterMap_extract_length (l : List LasFile) (h : ∀ f ∈ l, f.header.isSome) :
    (l.filterMap extractFeature).length = l.length := by
  induction l with
  | nil => rfl
  | cons f rest ih =>
    obtain ⟨hd, hhd⟩ := Option.isSome_iff_exists.mp (h f (List.mem_cons_self f rest))
    simp [List.filterMap_cons, extractFeature, hhd,
      ih fun g hg => h g (List.mem_cons_of_mem f hg)]

lemma process_run_ok (w : World) (out : Option OutputSpec) (crs : String)
    (hmk : mkdirOk w out = true) (hex : w.inputExists = true)
    (hne : globEntries w.inputEntries ≠ []) :
    process_point_clouds w out crs =
      { outputDirCreated := mkdirCreates w out,
        dataset := some { path := shapefilePath w out, crs := crs,
                          features := (writeLoop (globEntries w.inputEntries)).1 },
        warnings := (writeLoop (globEntries w.inputEntries)).2,
        result := .ok (shapefilePath w out) } := by
  simp [process_point_clouds, get_las_files, hmk, hex, List.isEmpty_iff, hne]

lemma process_dataset_crs (w : World) (out : Option OutputSpec) (crs : String)
    (d : Dataset) (hd : (process_point_clouds w out crs).dataset = some d) :
    d.crs = crs := by
  unfold process_point_clouds at hd
  split at hd
  · split at hd
    · simp at hd
    · split at hd
      · simp at hd
      · simp only [Option.some.injEq] at hd
        subst hd
        rfl
  · simp at hd

lemma process_result_path (w : World) (out : Option OutputSpec) (crs : String)
    (p : String) (hok : (process_point_clouds w out crs).result = .ok p) :
    p = shapefilePath w out ∧
      ∃ d, (process_point_clouds w out crs).dataset = some d ∧ d.path = p := by
  unfold process_point_clouds at hok ⊢
  split at hok
  · split at hok
    · simp at hok
    · split at hok
      · simp at hok
      · simp only [Except.ok.injEq] at hok
        subst hok
        refine ⟨rfl, ?_⟩
        simp_all
  · simp at hok

end PCBbox

namespace PCBbox

/-! Concrete fixtures used by witnesses and counterexamples. -/

/-- A sample readable header: extents 0..1 in both axes, 7 points. -/
def hd0 : Header := ⟨0, 1, 0, 1, 7⟩

/-- A directory with a single readable `a.las` file. -/
def cw : World :=
  { inputPath := "in", inputBase := "in", inputExists := true,
    inputEntries := [⟨"a.las".data, some hd0⟩], defaultOutExists := false }

/-- The feature the run over `cw` writes for `a.las`. -/
def cFeature : Feature :=
  { geometry := [(0, 0), (0, 1), (1, 1), (1, 0), (0, 0)],
    filename := "a.las".data, x_min := 0, x_max := 1, y_min := 0, y_max := 1,
    points := 7 }

/-- A directory with three `.las` entries of which the middle one cannot
be opened. -/
def cwBad : World :=
  { inputPath := "tiles", inputBase := "tiles", inputExists := true,
    inputEntries := [⟨"a.las".data, some hd0⟩, ⟨"broken.las".data, none⟩,
                     ⟨"b.las".data, some hd0⟩],
    defaultOutExists := false }

/-- A directory that exists but holds no matching file. -/
def cwEmpty : World :=
  { inputPath := "vault", inputBase := "vault", inputExists := true,
    inputEntries := [⟨"readme.txt".data, none⟩], defaultOutExists := false }

/-- A directory enumerating `A.las`, `B.laz`, `C.las` in that order. -/
def cw10 : World :=
  { inputPath := "area", inputBase := "area", inputExists := true,
    inputEntries := [⟨"A.las".data, some hd0⟩, ⟨"B.laz".data, some hd0⟩,
                     ⟨"C.las".data, some hd0⟩],
    defaultOutExists := false }

/-- Claim C1, as stated, is false on the code: the entry `A.LAS` has a
matching extension case-insensitively (N = 1, M = 0), yet
`get_las_files` returns zero entries, because `Path.glob("*.las")` is
case-sensitive on a case-sensitive filesystem. -/
theorem C1_counterexample :
    ciLasLaz "A.LAS".data = true ∧
    get_las_files true [⟨"A.LAS".data, none⟩] = Except.ok [] := by
  decide

/-- Claim C1 (amended): for every directory, `get_las_files` returns
exactly the entries whose name ends in the lower-case extension `.las`
or `.laz` — a permutation of that sub-list, hence of the same length,
independent of how many other entries the directory holds, and
non-recursive (only direct entries are consulted). -/
theorem C1_discovery_count (entries : List LasFile) :
    ∃ res, get_las_files true entries = Except.ok res ∧
      List.Perm res (entries.filter fun f => globMatchLas f.name || globMatchLaz f.name) ∧
      res.length =
        (entries.filter fun f => globMatchLas f.name || globMatchLaz f.name).length := by
  have hperm := filter_append_filter_perm (fun f : LasFile => globMatchLas f.name)
    (fun f : LasFile => globMatchLaz f.name) (fun f => globMatch_not_both f.name) entries
  exact ⟨globEntries entries, rfl, hperm, hperm.length_eq⟩

/-- Claim C2: `create_bounding_box_points` returns exactly the closed
five-vertex ring (x_min,y_min), (x_min,y_max), (x_max,y_max),
(x_max,y_min), (x_min,y_min), with first and last vertex identical; at
x_min=0, x_max=10, y_min=0, y_max=5 it is
[(0,0),(0,5),(10,5),(10,0),(0,0)]. -/
theorem C2_ring_vertices (h : Header) :
    create_bounding_box_points h =
      [(h.x_min, h.y_min), (h.x_min, h.y_max), (h.x_max, h.y_max),
       (h.x_max, h.y_min), (h.x_min, h.y_min)] ∧
    (create_bounding_box_points h).head? = some (h.x_min, h.y_min) ∧
    (create_bounding_box_points h).getLast? = some (h.x_min, h.y_min) ∧
    create_bounding_box_points ⟨0, 10, 0, 5, 0⟩ =
      [(0, 0), (0, 5), (10, 5), (10, 0), (0, 0)] :=
  ⟨rfl, rfl, rfl, by decide⟩

/-- Claim C6: on degenerate extents (x_min = x_max and y_min = y_max)
the extractor succeeds and yields the zero-area closed five-vertex ring
— all five vertices coincide and the shoelace area is zero. -/
theorem C6_degenerate_ring (h : Header) (hx : h.x_min = h.x_max)
    (hy : h.y_min = h.y_max) :
    create_bounding_box_points h = List.replicate 5 (h.x_min, h.y_min) ∧
    ringArea2 (create_bounding_box_points h) = 0 ∧
    (create_bounding_box_points h).length = 5 ∧
    (create_bounding_box_points h).head? = (create_bounding_box_points h).getLast? := by
  refine ⟨?_, ?_, rfl, rfl⟩
  · simp [create_bounding_box_points, ← hx, ← hy, List.replicate]
  · simp [create_bounding_box_points, ringArea2, ← hx, ← hy]

/-- Witness for C6 at the degenerate header x_min = x_max = 2,
y_min = y_max = 3. -/
theorem C6_degenerate_ring_witness :
    create_bounding_box_points ⟨2, 2, 3, 3, 0⟩ = List.replicate 5 (2, 3) ∧
    ringArea2 (create_bounding_box_points ⟨2, 2, 3, 3, 0⟩) = 0 ∧
    (create_bounding_box_points ⟨2, 2, 3, 3, 0⟩).length = 5 ∧
    (create_bounding_box_points ⟨2, 2, 3, 3, 0⟩).head? =
      (create_bounding_box_points ⟨2, 2, 3, 3, 0⟩).getLast? :=
  C6_degenerate_ring ⟨2, 2, 3, 3, 0⟩ rfl rfl

/-- Claim C9: `create_bounding_box_points` is total over arbitrary
header fields, with no precondition relating the extents: it always
returns exactly five vertices whose first element equals its last, also
at an explicit inverted header (x_min > x_max, y_min > y_max). -/
theorem C9_total_unvalidated (h : Header) :
    (create_bounding_box_points h).length = 5 ∧
    (create_bounding_box_points h).head? = (create_bounding_box_points h).getLast? ∧
    (create_bounding_box_points h).head? = some (h.x_min, h.y_min) ∧
    create_bounding_box_points ⟨10, 0, 5, 0, 0⟩ =
      [(10, 5), (10, 0), (0, 0), (0, 5), (10, 5)] :=
  ⟨rfl, rfl, rfl, by decide⟩

end PCBbox

namespace PCBbox

/-- Claim C3, as stated, is false on the code: with a missing input
directory and an explicit `--output` whose parent exists, the run does
exit 1, but the output directory IS created — `output_path.mkdir` runs
before `get_las_files` in `process_point_clouds`. -/
theorem C3_counterexample :
    (mainRun ⟨"missing", "missing", false, [], false⟩
        (some ⟨"out", true, false⟩) none).2 = 1 ∧
    (mainRun ⟨"missing", "missing", false, [], false⟩
        (some ⟨"out", true, false⟩) none).1.outputDirCreated = true := by
  decide

/-- Claim C3 (amended): when the input directory does not exist, every
run exits 1 with a FileNotFound error and no dataset is opened; no
output directory is created when `--output` is omitted (the default
output's own `mkdir` fails first), but an explicit `--output` whose
parent exists is created before the failure. -/
theorem C3_missing_input_fails (w : World) (out : Option OutputSpec)
    (crsArg : Option String) (hex : w.inputExists = false) :
    (mainRun w out crsArg).2 = 1 ∧
    (∃ msg, (mainRun w out crsArg).1.result = Except.error (.fileNotFound msg)) ∧
    (mainRun w out crsArg).1.dataset = none ∧
    (out = none → (mainRun w out crsArg).1.outputDirCreated = false) := by
  cases out with
  | none =>
    cases hdo : w.defaultOutExists <;>
      simp [mainRun, process_point_clouds, mkdirOk, mkdirCreates, get_las_files,
        hex, hdo]
  | some o =>
    by_cases hmk : (o.parentExists || o.alreadyExists) = true <;>
      simp [mainRun, process_point_clouds, mkdirOk, mkdirCreates, get_las_files,
        hex, hmk]

/-- Witness for the amended C3: a missing input folder, no `--output`. -/
theorem C3_missing_input_fails_witness :
    (mainRun ⟨"gone", "gone", false, [], false⟩ none none).2 = 1 ∧
    (∃ msg, (mainRun ⟨"gone", "gone", false, [], false⟩ none none).1.result =
      Except.error (.fileNotFound msg)) ∧
    (mainRun ⟨"gone", "gone", false, [], false⟩ none none).1.dataset = none ∧
    ((none : Option OutputSpec) = none →
      (mainRun ⟨"gone", "gone", false, [], false⟩ none none).1.outputDirCreated = false) :=
  C3_missing_input_fails ⟨"gone", "gone", false, [], false⟩ none none rfl

/-- Claim C4: when discovery yields `pre ++ bad :: post` where only
`bad` cannot be opened, the run exits 0, the dataset holds exactly
K - 1 features — those of `pre` then `post`, in order, unaffected — and
the single warning names the failing file. -/
theorem C4_bad_file_isolated (w : World) (out : Option OutputSpec)
    (crsArg : Option String) (pre post : List LasFile) (bad : LasFile)
    (hex : w.inputExists = true) (hmk : mkdirOk w out = true)
    (hfiles : globEntries w.inputEntries = pre ++ bad :: post)
    (hbad : bad.header = none)
    (hpre : ∀ f ∈ pre, f.header.isSome = true)
    (hpost : ∀ f ∈ post, f.header.isSome = true) :
    (mainRun w out crsArg).2 = 0 ∧
    ∃ d, (mainRun w out crsArg).1.dataset = some d ∧
      d.features.length = (globEntries w.inputEntries).length - 1 ∧
      d.features = pre.filterMap extractFeature ++ post.filterMap extractFeature ∧
      (mainRun w out crsArg).1.warnings = [bad.name] := by
  have hne : globEntries w.inputEntries ≠ [] := by
    rw [hfiles]
    simp
  have hrun := process_run_ok w out (crsArg.getD defaultCrs) hmk hex hne
  have hfeat : (writeLoop (globEntries w.inputEntries)).1
      = pre.filterMap extractFeature ++ post.filterMap extractFeature := by
    rw [writeLoop_fst, hfiles]
    simp [List.filterMap_append, List.filterMap_cons, extractFeature, hbad]
  have hlen : (pre.filterMap extractFeature ++ post.filterMap extractFeature).length
      = (globEntries w.inputEntries).length - 1 := by
    rw [hfiles]
    simp [List.length_append, filterMap_extract_length pre hpre,
      filterMap_extract_length post hpost]
  have hwarn : (writeLoop (globEntries w.inputEntries)).2 = [bad.name] := by
    rw [writeLoop_snd, hfiles]
    have h1 : pre.filter (fun f => f.header.isNone) = [] := by
      rw [List.filter_eq_nil_iff]
      intro f hf
      obtain ⟨v, hv⟩ := Option.isSome_iff_exists.mp (hpre f hf)
      simp [hv]
    have h2 : post.filter (fun f => f.header.isNone) = [] := by
      rw [List.filter_eq_nil_iff]
      intro f hf
      obtain ⟨v, hv⟩ := Option.isSome_iff_exists.mp (hpost f hf)
      simp [hv]
    simp [List.filter_append, List.filter_cons, h1, h2, hbad]
  constructor
  · simp [mainRun, hrun]
  · refine ⟨{ path := shapefilePath w out, crs := crsArg.getD defaultCrs,
              features := (writeLoop (globEntries w.inputEntries)).1 },
      ?_, ?_, ?_, ?_⟩
    · simp [mainRun, hrun]
    · show (writeLoop (globEntries w.inputEntries)).1.length =
        (globEntries w.inputEntries).length - 1
      rw [hfeat]
      exact hlen
    · exact hfeat
    · simp [mainRun, hrun, hwarn]

/-- Witness for C4: three `.las` entries of which the middle one is
unreadable yield two features and one warning, exit code 0. -/
theorem C4_bad_file_isolated_witness :
    (mainRun cwBad none none).2 = 0 ∧
    ∃ d, (mainRun cwBad none none).1.dataset = some d ∧
      d.features.length = (globEntries cwBad.inputEntries).length - 1 ∧
      d.features = [⟨"a.las".data, some hd0⟩].filterMap extractFeature ++
        [⟨"b.las".data, some hd0⟩].filterMap extractFeature ∧
      (mainRun cwBad none none).1.warnings = ["broken.las".data] :=
  C4_bad_file_isolated cwBad none none [⟨"a.las".data, some hd0⟩]
    [⟨"b.las".data, some hd0⟩] ⟨"broken.las".data, none⟩
    rfl rfl (by decide) rfl (by decide) (by decide)

/-- Claim C5: when the input directory exists but discovery matches no
file, the run exits 1 and no dataset is ever opened — when `mkdir`
succeeded the error raised is the ValueError thrown before the writer
is reached. -/
theorem C5_zero_matches_no_dataset (w : World) (out : Option OutputSpec)
    (crsArg : Option String) (hex : w.inputExists = true)
    (hempty : globEntries w.inputEntries = []) :
    (mainRun w out crsArg).2 = 1 ∧
    (mainRun w out crsArg).1.dataset = none ∧
    (mkdirOk w out = true →
      ∃ msg, (mainRun w out crsArg).1.result = Except.error (.valueError msg)) := by
  by_cases hmk : mkdirOk w out = true <;>
    simp [mainRun, process_point_clouds, get_las_files, hex, hempty, hmk]

/-- Witness for C5: a directory holding only `readme.txt`. -/
theorem C5_zero_matches_no_dataset_witness :
    (mainRun cwEmpty none none).2 = 1 ∧
    (mainRun cwEmpty none none).1.dataset = none ∧
    (mkdirOk cwEmpty none = true →
      ∃ msg, (mainRun cwEmpty none none).1.result =
        Except.error (.valueError msg)) :=
  C5_zero_matches_no_dataset cwEmpty none none rfl (by decide)

/-- Claim C7: whenever a run reaches the writer, the dataset's CRS is
the `--crs` argument verbatim when supplied and `EPSG:4326` otherwise. -/
theorem C7_crs_verbatim (w : World) (out : Option OutputSpec)
    (crsArg : Option String) (d : Dataset)
    (hd : (mainRun w out crsArg).1.dataset = some d) :
    d.crs = crsArg.getD defaultCrs :=
  process_dataset_crs w out (crsArg.getD defaultCrs) d hd

/-- Witness for C7: a run over `cw` with `--crs EPSG:25832`. -/
theorem C7_crs_verbatim_witness :
    (Dataset.mk "in/PointCloud_laz_BBOX/PointCloud_laz_BBOX_in.shp"
      "EPSG:25832" [cFeature]).crs = (some "EPSG:25832").getD defaultCrs :=
  C7_crs_verbatim cw none (some "EPSG:25832")
    (Dataset.mk "in/PointCloud_laz_BBOX/PointCloud_laz_BBOX_in.shp"
      "EPSG:25832" [cFeature])
    (by decide)

/-- Claim C8: every successful run returns
`<output_folder>/PointCloud_laz_BBOX_<input_folder_basename>.shp`, the
output folder defaulting to `<input>/PointCloud_laz_BBOX`, and the
dataset was created at exactly that path. -/
theorem C8_output_path (w : World) (out : Option OutputSpec) (crs : String)
    (p : String) (hok : (process_point_clouds w out crs).result = Except.ok p) :
    p = outFolderPath w out ++ "/PointCloud_laz_BBOX_" ++ w.inputBase ++ ".shp" ∧
    outFolderPath w none = w.inputPath ++ "/PointCloud_laz_BBOX" ∧
    ∃ d, (process_point_clouds w out crs).dataset = some d ∧ d.path = p := by
  obtain ⟨hp, hd⟩ := process_result_path w out crs p hok
  exact ⟨hp, rfl, hd⟩

/-- Witness for C8: the run over `cwBad` (one file skipped) still
returns `tiles/PointCloud_laz_BBOX/PointCloud_laz_BBOX_tiles.shp`. -/
theorem C8_output_path_witness :
    "tiles/PointCloud_laz_BBOX/PointCloud_laz_BBOX_tiles.shp" =
      outFolderPath cwBad none ++ "/PointCloud_laz_BBOX_" ++ cwBad.inputBase ++ ".shp" ∧
    outFolderPath cwBad none = cwBad.inputPath ++ "/PointCloud_laz_BBOX" ∧
    ∃ d, (process_point_clouds cwBad none defaultCrs).dataset = some d ∧
      d.path = "tiles/PointCloud_laz_BBOX/PointCloud_laz_BBOX_tiles.shp" :=
  C8_output_path cwBad none defaultCrs
    "tiles/PointCloud_laz_BBOX/PointCloud_laz_BBOX_tiles.shp" (by decide)

/-- Claim C10: discovery always lists every `*.las` match before every
`*.laz` match (the two glob passes are never interleaved), and the
pipeline writes features in discovery order: the directory enumerating
`A.las`, `B.laz`, `C.las` yields features `A.las`, `C.las`, `B.laz`. -/
theorem C10_las_group_before_laz (entries : List LasFile) :
    (∃ l1 l2, globEntries entries = l1 ++ l2 ∧
      (∀ f ∈ l1, globMatchLas f.name = true) ∧
      (∀ f ∈ l2, globMatchLaz f.name = true ∧ globMatchLas f.name = false)) ∧
    ((mainRun cw10 none none).1.dataset.map fun d => d.features.map Feature.filename) =
      some ["A.las".data, "C.las".data, "B.laz".data] := by
  constructor
  · refine ⟨entries.filter (fun f => globMatchLas f.name),
            entries.filter (fun f => globMatchLaz f.name), rfl, ?_, ?_⟩
    · intro f hf
      exact (List.mem_filter.mp hf).2
    · intro f hf
      have hz := (List.mem_filter.mp hf).2
      refine ⟨hz, ?_⟩
      cases hl : globMatchLas f.name
      · rfl
      · exact absurd ⟨hl, hz⟩ (globMatch_not_both f.name)
  · decide

end PCBbox
